import Mathlib

/-!
Shallow embedding of the two command-line tools of this repository,
`prepare-commit-msg.py` and `keep-a-changelog.py`, and proofs about them.

Each tool is a linear pipeline: check the git repository, gather the staged
diff, render two prompt strings, perform one HTTP POST, extract the generated
text from the JSON response (with a regex fallback), sanitize it, and write it
to a destination file.  The embedding models:

* the text-sanitization pipeline (the five `re.sub` calls) as structurally
  recursive functions on `List Char`;
* the JSON response as an inductive `PyValue` (string / list / dict / None),
  with the `choices[0].message.content` lookup returning `Option` exactly
  where Python's `except (KeyError, IndexError, TypeError)` catches;
* the fallback `re.search(r'"content":"([^"]*)"', response)` as a
  left-to-right scanner;
* `validate_commit_message`'s regex as an executable matcher derived from
  Python `re` semantics (`re.match` anchors at the start; `$` without
  `re.MULTILINE` matches at the end of the string or just before a final
  newline; `.` does not match a newline);
* each `main` as a function from an environment (git state, API key, API
  response) to the list of observable events (echoes, the HTTP request, file
  writes) plus a run result (returned normally, or crashed with an uncaught
  Python exception).

Python's `\s` also matches some non-ASCII whitespace; the model uses the
ASCII whitespace set `[ \t\n\r\x0b\x0c]`, which is what every claim below
exercises.
-/

/-- The characters Python's `\s` (and `str.strip()`) match, restricted to
ASCII: space, tab, newline, carriage return, vertical tab, form feed. -/
def pyWhitespace (c : Char) : Bool :=
  c == ' ' || c == '\t' || c == '\n' || c == '\r' || c == '\x0b' || c == '\x0c'

/-- The character class `[a-zA-Z]` of the regexes. -/
def isAsciiAlpha (c : Char) : Bool :=
  ('a' ≤ c && c ≤ 'z') || ('A' ≤ c && c ≤ 'Z')

/-- `re.sub(r'\\n', '\n', s)`: replace each literal backslash-n two-character
sequence by a real newline, scanning left to right, non-overlapping. -/
def subBackslashN : List Char → List Char
  | [] => []
  | '\\' :: 'n' :: rest => '\n' :: subBackslashN rest
  | c :: rest => c :: subBackslashN rest

/-- `re.sub(r'\\r', '', s)`: delete each literal backslash-r two-character
sequence. -/
def subBackslashR : List Char → List Char
  | [] => []
  | '\\' :: 'r' :: rest => subBackslashR rest
  | c :: rest => c :: subBackslashR rest

/-- `re.sub(r'^\s+', '', s)`: without `re.MULTILINE`, `^` only matches at the
start, so this removes exactly the maximal leading whitespace run. -/
def stripLeadingWs (l : List Char) : List Char :=
  l.dropWhile pyWhitespace

/-- `re.sub(r'\s+$', '', s)`: `$` matches at the end of the string or just
before a final newline, and the leftmost-longest match of `\s+$` under
backtracking is exactly the maximal trailing whitespace run, so this removes
exactly that run. -/
def stripTrailingWs (l : List Char) : List Char :=
  (l.reverse.dropWhile pyWhitespace).reverse

/-- Worker for `re.sub(r'\\[a-zA-Z]+', '', s)`.  `skip = true` means the scan
is inside the (greedy) alphabetic run of a match being deleted; in that mode
alphabetic characters are consumed, and the first non-alphabetic character
returns to normal scanning.  In normal mode a backslash followed by an
alphabetic character starts a deletion; any other character is kept. -/
def subBackslashAlphaAux : List Char → Bool → List Char
  | [], _ => []
  | [c], skip =>
    if skip && isAsciiAlpha c then []
    else if c == '\\' then ['\\']
    else [c]
  | c :: c2 :: rest, skip =>
    if skip && isAsciiAlpha c then subBackslashAlphaAux (c2 :: rest) true
    else if c == '\\' then
      if isAsciiAlpha c2 then subBackslashAlphaAux rest true
      else '\\' :: subBackslashAlphaAux (c2 :: rest) false
    else c :: subBackslashAlphaAux (c2 :: rest) false

/-- `re.sub(r'\\[a-zA-Z]+', '', s)`: delete each backslash followed by a
maximal nonempty run of alphabetic characters. -/
def subBackslashAlpha (l : List Char) : List Char :=
  subBackslashAlphaAux l false

/-- The five-step sanitization pipeline shared verbatim by
`extract_commit_message` (prepare-commit-msg.py lines 212-216) and
`extract_generated_changelog` (keep-a-changelog.py lines 208-212), in the
source's order: unescape `\n`, delete `\r`, strip leading whitespace, strip
trailing whitespace, delete remaining backslash-alphabetic escapes. -/
def sanitizeContent (l : List Char) : List Char :=
  subBackslashAlpha (stripTrailingWs (stripLeadingWs (subBackslashR (subBackslashN l))))

/-- The sanitization pipeline on `String`. -/
def sanitizeStr (s : String) : String :=
  ⟨sanitizeContent s.toList⟩

/-- Python `str.strip()` (used on subprocess output in keep-a-changelog.py). -/
def pyStrip (s : String) : String :=
  ⟨stripTrailingWs (stripLeadingWs s.toList)⟩

/-- A JSON-ish Python value as the tools see one: the parsed API response.
Dict keys are strings (the response shapes the tools touch have no other
keys). -/
inductive PyValue where
  | pyStr (s : String)
  | pyList (xs : List PyValue)
  | pyDict (entries : List (String × PyValue))
  | pyNone

/-- Lookup in a modeled dict (first match; modeled dicts have distinct keys). -/
def dictGet (entries : List (String × PyValue)) (key : String) : Option PyValue :=
  match entries with
  | [] => none
  | (k, v) :: rest => if k == key then some v else dictGet rest key

/-- The `response["choices"][0]["message"]["content"]` lookup of both tools.
`some v` iff every step succeeds in Python; every failing shape raises
`KeyError`, `IndexError` or `TypeError`, all of which the source's `except`
clause catches, so all failures collapse to `none` here.  (A string value for
`"choices"` indexes to a one-character string whose `["message"]` lookup then
raises `TypeError`, hence also `none`.) -/
def primaryLookup (response : PyValue) : Option PyValue :=
  match response with
  | .pyDict es =>
    match dictGet es "choices" with
    | some (.pyList (c0 :: _)) =>
      match c0 with
      | .pyDict ms =>
        match dictGet ms "message" with
        | some (.pyDict cs) => dictGet cs "content"
        | _ => none
      | _ => none
    | _ => none
  | _ => none

/-- An uncaught Python exception.  Every crash modeled in this file is a
`TypeError` (`re.sub`/`re.search` applied to a non-string, or a call with a
missing required positional argument). -/
inductive PyErr where
  | typeError
deriving DecidableEq

/-- The literal part `"content":"` of the fallback pattern
`r'"content":"([^"]*)"'`. -/
def contentKeyPat : List Char :=
  '"' :: 'c' :: 'o' :: 'n' :: 't' :: 'e' :: 'n' :: 't' :: '"' :: ':' :: '"' :: []

/-- The capture group `([^"]*)` followed by the closing `"`: the run of
non-quote characters up to the next quote, `none` when no closing quote
exists (then the regex cannot match at this position). -/
def captureToQuote : List Char → Option (List Char)
  | [] => none
  | '"' :: _ => some []
  | c :: rest => (captureToQuote rest).map (fun l => c :: l)

/-- `re.search(r'"content":"([^"]*)"', s)`: the capture of the leftmost
match.  At each position, the literal `"content":"` must be a prefix and a
closing quote must follow; otherwise the scan moves one character right.
(When the literal matches but no closing quote follows, no later position can
match either, since any later occurrence of the literal would itself supply a
quote; recursing is therefore equivalent to `re`'s retry.) -/
def searchContent : List Char → Option (List Char)
  | [] => none
  | c :: rest =>
    if contentKeyPat.isPrefixOf (c :: rest) then
      match captureToQuote ((c :: rest).drop contentKeyPat.length) with
      | some cap => some cap
      | none => searchContent rest
    else searchContent rest

/-- The fallback extraction on a `String` response. -/
def reSearchContent (s : String) : Option String :=
  (searchContent s.toList).map (fun l => ⟨l⟩)

/-- `pat` occurs as a contiguous subsequence of the list (used to state that a
response "contains the substring"). -/
def occursIn (pat : List Char) : List Char → Bool
  | [] => pat.isEmpty
  | c :: rest => pat.isPrefixOf (c :: rest) || occursIn pat rest

/-- Python truthiness of the modeled values (`if not response:` in
keep-a-changelog.py line 117): `None`, `""`, `[]` and an empty dict are
falsy. -/
def pyFalsy : PyValue → Bool
  | .pyNone => true
  | .pyStr s => s.isEmpty
  | .pyList xs => xs.isEmpty
  | .pyDict es => es.isEmpty

/-- The object `subprocess.run(...)` returns. -/
structure CompletedProcess where
  args : List String
  returncode : Int
  stdout : String

/-- `bool(changes)` for a `CompletedProcess` (prepare-commit-msg.py line 122):
`subprocess.CompletedProcess` defines neither `__bool__` nor `__len__`, so
every instance is truthy. -/
def completedProcessTruthy (_cp : CompletedProcess) : Bool :=
  true

/-- `str(changes)` for a `CompletedProcess`, as `USER_PROMPT.format(changes)`
renders it.  An approximate rendering of CPython's repr; no claim below
depends on this text, only on which inputs it is built from. -/
def completedProcessStr (cp : CompletedProcess) : String :=
  "CompletedProcess(args=[" ++ String.intercalate ", " cp.args ++ "], returncode="
    ++ toString cp.returncode ++ ", stdout=" ++ cp.stdout ++ ")"

/-- `template.format(arg)` for the templates of both tools: each holds exactly
one `\x7b\x7d` placeholder; Python replaces it with the argument.  (Scanning
left to right, only the first placeholder is substituted, which coincides
with `str.format` on these single-placeholder templates.) -/
def formatBraces (arg : List Char) : List Char → List Char
  | [] => []
  | '\x7b' :: '\x7d' :: rest => arg ++ rest
  | c :: rest => c :: formatBraces arg rest

/-- `template.format(arg)` on `String`. -/
def pyFormat1 (template arg : String) : String :=
  ⟨formatBraces arg.toList template.toList⟩

/-- An observable effect of a run: a `click.echo` (with its error flag), the
HTTP POST to the chat-completions endpoint (with the model and the two
message contents of its payload), or a file write. -/
inductive Event where
  | echo (message : String) (err : Bool)
  | apiRequest (model user_content system_content : String)
  | writeFile (filename content : String)
deriving DecidableEq

/-- Whether an event is the HTTP request. -/
def Event.isApiRequest : Event → Bool
  | .apiRequest _ _ _ => true
  | _ => false

/-- Whether an event is a file write. -/
def Event.isWrite : Event → Bool
  | .writeFile _ _ => true
  | _ => false

/-- Whether an event is an echo of exactly the message `m`. -/
def Event.isEchoMsg (m : String) : Event → Bool
  | .echo message _ => decide (message = m)
  | _ => false

/-- How a modeled run ends: a normal return, or an uncaught exception. -/
inductive RunResult where
  | returned
  | crashed (e : PyErr)
deriving DecidableEq

namespace PrepareCommitMsg

/-- The module-level USER_PROMPT template of prepare-commit-msg.py (its one
format placeholder written as an escaped brace pair). -/
def USER_PROMPT : String :=
  "Generate a commit message based on the following changes below:\n\n\\```\n\x7b\x7d\n\\```\n\nIMPORTANT\n\n  - Follow conventional commit format\n  - First line should be a concise summary (max 50 characters)\n  - Do not include any explanation in your response\n  - Only return a commit message content\n  - Do not wrap it in backticks\n  - One change per line.\n  - All lines should be a concise summary (max 80 characters)\n  "

/-- The module-level SYSTEM_PROMPT of prepare-commit-msg.py (an f-string with
no placeholder). -/
def SYSTEM_PROMPT : String :=
  "Provide a detailed commit message with a title and description.
The title should be a concise summary (max 50 characters).
The description should provide more context about the changes,
explaining why the changes were made and their impact.
Use bullet points if multiple changes are significant.

SPECIFICATION

The key words MUST, MUST NOT, REQUIRED, SHALL, SHALL NOT, SHOULD, SHOULD NOT, RECOMMENDED, MAY, and OPTIONAL in this document are to be interpreted as described in RFC 2119.

- Commits MUST be prefixed with a type, which consists of a noun, feat, fix, etc., followed by the OPTIONAL scope, OPTIONAL !, and REQUIRED terminal colon and space.
- The type feat MUST be used when a commit adds a new feature to your application or library.
- The type fix MUST be used when a commit represents a bug fix for your application.
- A scope MAY be provided after a type. A scope MUST consist of a noun describing a section of the codebase surrounded by parenthesis, e.g., fix(parser):
- A description MUST immediately follow the colon and space after the type/scope prefix. The description is a short summary of the code changes, e.g., fix: array parsing issue when multiple spaces were contained in string.
- A longer commit body MAY be provided after the short description, providing additional contextual information about the code changes. The body MUST begin one blank line after the description.
- A commit body is free-form and MAY consist of any number of newline separated paragraphs.
- One or more footers MAY be provided one blank line after the body. Each footer MUST consist of a word token, followed by either a :<space> or <space># separator, followed by a string value (this is inspired by the git trailer convention).
- A footer's token MUST use - in place of whitespace characters, e.g., Acked-by (this helps differentiate the footer section from a multi-paragraph body). An exception is made for BREAKING CHANGE, which MAY also be used as a token.
- A footer's value MAY contain spaces and newlines, and parsing MUST terminate when the next valid footer token/separator pair is observed.
- Breaking changes MUST be indicated in the type/scope prefix of a commit, or as an entry in the footer.
- If included as a footer, a breaking change MUST consist of the uppercase text BREAKING CHANGE, followed by a colon, space, and description, e.g., BREAKING CHANGE: environment variables now take precedence over config files.
- If included in the type/scope prefix, breaking changes MUST be indicated by a ! immediately before the :. If ! is used, BREAKING CHANGE: MAY be omitted from the footer section, and the commit description SHALL be used to describe the breaking change.
- Types other than feat and fix MAY be used in your commit messages, e.g., docs: update ref docs.
- The units of information that make up Conventional Commits MUST NOT be treated as case sensitive by implementors, with the exception of BREAKING CHANGE which MUST be uppercase.
- BREAKING-CHANGE MUST be synonymous with BREAKING CHANGE, when used as a token in a footer.

EXAMPLES

Commit message with description and breaking change footer:

  feat: allow provided config object to extend other configs
  BREAKING CHANGE: 'extends' key in config file is now used for extending other config files

Commit message with ! to draw attention to breaking change:

  feat!: send an email to the customer when a product is shipped

Commit message with scope and ! to draw attention to breaking change:

  feat(api)!: send an email to the customer when a product is shipped

Commit message with both ! and BREAKING CHANGE footer:

  chore!: drop support for Node 6
  BREAKING CHANGE: use JavaScript features not available in Node 6.

Commit message with no body:

  docs: correct spelling of CHANGELOG

Commit message with scope:

  feat(lang): add Polish language

Commit message with multi-paragraph body and multiple footers:

  fix: prevent racing of requests

  Introduce a request id and a reference to latest request. Dismiss
  incoming responses other than from latest request.

  Remove timeouts which were used to mitigate the racing issue but are
  obsolete now.
    "

/-- extract_commit_message (prepare-commit-msg.py lines 201-220) as a function
of the response value.  The try-block lookup falls back to the regex scrape on
lookup failure; a `None` extraction result (no regex match) reaches
`re.sub(r'\\n', '\n', None)`, which raises `TypeError`; so does the fallback
`re.search` when the response is not a string, and the sanitization when the
extracted content is not a string.  (The `debug_log` parameter of the source
only echoes and returns `None`; it does not affect this function's value.) -/
def extract_commit_message (response : PyValue) : Except PyErr String :=
  match primaryLookup response with
  | some (.pyStr s) => .ok (sanitizeStr s)
  | some _ => .error .typeError
  | none =>
    match response with
    | .pyStr raw =>
      match reSearchContent raw with
      | some s => .ok (sanitizeStr s)
      | none => .error .typeError
    | _ => .error .typeError

/-- The type alternatives of validate_commit_message's pattern
`^(feat|fix|docs|style|refactor|perf|test|build|ci|chore|revert)(\(.+\))?: .+$`,
in the source's order.  No alternative is a prefix of another, so at most one
can match a given line. -/
def commitTypes : List String :=
  ["feat", "fix", "docs", "style", "refactor", "perf", "test", "build", "ci", "chore", "revert"]

/-- Whether the list matches `: .+$` up to the end: a colon, a space, and at
least one more character (the pattern's `.` cannot match a newline, but a
newline anywhere would already have blocked the anchors; the caller checks
newline-freeness of the whole line). -/
def colonSpaceDesc : List Char → Bool
  | c1 :: c2 :: _ :: _ => c1 == ':' && c2 == ' '
  | _ => false

/-- Whether the list itself starts with `): ` followed by at least one more
character: the closing of the scope group followed by the description. -/
def closeParenDesc : List Char → Bool
  | c1 :: c2 :: c3 :: _ :: _ => c1 == ')' && c2 == ':' && c3 == ' '
  | _ => false

/-- Whether some suffix of the list starts with `): ` followed by a nonempty
description: the backtracking search for where `\(.+\)` closes. -/
def closeScan : List Char → Bool
  | [] => false
  | c :: rest => closeParenDesc (c :: rest) || closeScan rest

/-- Whether the part of the line after the matched type alternative matches
`(\(.+\))?: .+$`: either directly `: ` and a nonempty description, or an
opening parenthesis, at least one scope character, and then (somewhere) `): `
and a nonempty description. -/
def afterTypeMatch : List Char → Bool
  | [] => false
  | [_] => false
  | c1 :: c2 :: rest =>
    if c1 == '(' then closeScan rest else colonSpaceDesc (c1 :: c2 :: rest)

/-- Whether `re.match(pattern, line)` succeeds on a line that must be consumed
entirely (see `validate_commit_message`): the line holds no newline (no
pattern element can consume one), starts with one of the type alternatives,
and continues as `afterTypeMatch` describes. -/
def lineMatch (l : List Char) : Bool :=
  !(l.contains '\n')
    && commitTypes.any (fun t => t.toList.isPrefixOf l && afterTypeMatch (l.drop t.length))

/-- The portion of the message that `re.match`'s anchors force the pattern to
consume: `re.match` anchors at the start, and `$` (without `re.MULTILINE`)
matches only at the end of the string or just before a terminating newline,
so the match must cover the whole message, minus at most one final
newline. -/
def coreOf (m : String) : List Char :=
  if m.toList.getLast? = some '\n' then m.toList.dropLast else m.toList

/-- validate_commit_message (prepare-commit-msg.py lines 223-228):
`re.match(r"^(feat|fix|docs|style|refactor|perf|test|build|ci|chore|revert)(\(.+\))?: .+$", message)`
is truthy.  Executable rendering of the pattern's semantics under Python `re`
(see `coreOf` and `lineMatch`). -/
def validate_commit_message (message : String) : Bool :=
  lineMatch (coreOf message)

/-- The git-state / environment a run of the commit tool observes. -/
structure Env where
  isRepo : Bool
  diffStdout : String
  apiKey : Option String
  apiResponse : PyValue

/-- main of prepare-commit-msg.py as a trace function (debug-only echoes are
not modeled).  Control flow of the source: abort when not a git repository
(line 112); test `if not changes:` on the `CompletedProcess` object itself
(line 122) — always truthy, so the INFO branch is unreachable; abort without
an API key (line 129); rebind `user_prompt`/`system_prompt` from the built-in
templates, ignoring the `--user-prompt`/`--system-prompt` option values
(lines 133-134); POST the payload (line 136).  Line 142 then calls
`extract_commit_message(response)` with one argument, but the function's
signature (line 201) requires two (`response, debug_log`): Python raises
`TypeError: extract_commit_message() missing 1 required positional argument`,
so every run that reaches this point crashes before any validation or file
write. -/
def main (env : Env) (_debug : Bool) (model : String) (_commit_msg_filename : String)
    (open_source : Bool) (_user_prompt _system_prompt : Option String) :
    List Event × RunResult :=
  if !env.isRepo then
    ([.echo "ERROR: Not in a git repository" true], .returned)
  else
    let changes : CompletedProcess :=
      { args :=
          if open_source then ["git", "diff", "--cached", "--ignore-all-space"]
          else ["git", "diff", "--cached", "--name-status", "--ignore-all-space"],
        returncode := 0, stdout := env.diffStdout }
    if !completedProcessTruthy changes then
      ([.echo "INFO: No staged changes found. Please stage your changes using 'git add' first." false],
        .returned)
    else
      match env.apiKey with
      | none =>
        ([.echo "ERROR: No API key found. Please provide the OpenRouter API key as an argument or set the OPENROUTER_API_KEY environment variable." true],
          .returned)
      | some _ =>
        let user_prompt := pyFormat1 USER_PROMPT (completedProcessStr changes)
        let system_prompt := SYSTEM_PROMPT
        ([.apiRequest model user_prompt system_prompt], .crashed .typeError)

/-- The continuation of main from line 143, parameterized by the value line
142 would bind to `commit_full` (reaching it requires the call-arity slip
reported separately): abort with an error echo when the extraction result is
falsy (None or empty); echo a validation error when
`validate_commit_message` fails, without returning; attempt the file write
either way; echo a write error when the write fails. -/
def mainPostExtract (commit_msg_filename : String) (commit_full : Option String)
    (writeOk : Bool) : List Event :=
  if (match commit_full with | none => true | some s => s.isEmpty) then
    [.echo "ERROR: Failed to extract commit message from API response." true]
  else
    let msg := commit_full.getD ""
    (if !validate_commit_message msg then
      [Event.echo "ERROR: Generated message does not follow conventional commit format" true]
     else [])
    ++ [Event.writeFile commit_msg_filename msg]
    ++ (if !writeOk then
          [Event.echo ("ERROR: Failed to write commit message to " ++ commit_msg_filename) true]
        else [])

end PrepareCommitMsg

namespace KeepAChangelog

/-- The module-level USER_PROMPT template of keep-a-changelog.py (its one
format placeholder written as an escaped brace pair). -/
def USER_PROMPT : String :=
  "I want to update my CHANGELOG.md file following Keep a Changelog format.\n\nEnsure the release notes are appended below previous entries and use the Keep a Changelog format. If the file doesn't exist, create it.\n\n\\```\n\x7b\x7d\n\\```\n\nIMPORTANT:\n  - Group changes by category (Added, Changed, Deprecated, Removed, Fixed, Security)\n  - Each change should be on a separate line\n  - Each line should be a concise summary (max 50 characters)\n  - Do not include any explanation in your response\n  - Do not wrap it in backticks\n  - DO NOT, I REPEAT DO NOT, remove or alter previous entries.\n  - Append new entries at the end of the file and that's it.\n"

/-- The module-level SYSTEM_PROMPT template of keep-a-changelog.py (its one
format placeholder written as an escaped brace pair). -/
def SYSTEM_PROMPT : String :=
  "You are an AI assistant tasked with maintaining a CHANGELOG.md file for a software project.\n\nThe output should meet the following criteria:\n\nIf the file already exists, append the new release notes under the existing entries.\n\nFollow the Keep a Changelog format strictly:\n- Provide a \"## [Unreleased]\" section if not already present for future updates.\n- Use a \"## [Version Number] - YYYY-MM-DD\" header for the new release.\n- Organize entries into the following categories if applicable: Added, Changed, Deprecated, Removed, Fixed, Security.\n\nIf the file does not exist, initialize it with:\n\n\\```\n# Changelog\n\nAll notable changes to this project will be documented in this file.\n\nThe format is based on [Keep a Changelog](https://keepachangelog.com/en/1.0.0/).\n\n\\```\n\nExample for a new release:\n\n\\```markdown\n## [1.2.0] - 2024-12-01\n### Added\n- Added support for user authentication.\n\n### Fixed\n- Fixed an issue with pagination on the main feed.\n\\```\n\nIMPORTANT:\n- Ensure entries are clear, concise, and accurately categorized.\n- Provide the final CHANGELOG.md file as your response.\n- Do not wrap it in backticks\n- Return the entire file, old and new entries included.\n- Keep all existing entries intact.\n- DO NOT, I REPEAT DO NOT, remove or alter previous entries.\n\nHere is the current changelog:\n\\```\n\x7b\x7d\n\\```\n"

/-- The return value of the inner `debug_log` closure: its body only calls
`click.echo` and has no return statement, so every call returns `None`. -/
def debug_log_return : Option String := none

/-- extract_generated_changelog (keep-a-changelog.py lines 197-214).  Same
lookup, fallback and sanitization as the commit tool's extractor, but line
213 then rebinds the result to `debug_log("Extracted relevant notes", ...)`'s
return value, which is always `None`; so every non-crashing run of this
function returns `None`, the sanitized text having been computed and
discarded. -/
def extract_generated_changelog (response : PyValue) : Except PyErr (Option String) :=
  match primaryLookup response with
  | some (.pyStr s) =>
    let _generated_changelog := sanitizeStr s
    .ok debug_log_return
  | some _ => .error .typeError
  | none =>
    match response with
    | .pyStr raw =>
      match reSearchContent raw with
      | some s =>
        let _generated_changelog := sanitizeStr s
        .ok debug_log_return
      | none => .error .typeError
    | _ => .error .typeError

/-- is_changelog_staged (lines 143-145): `bool(result.stdout.strip())` for
`git diff --cached --name-only -- <changelog>`. -/
def is_changelog_staged (stagedNameOnlyStdout : String) : Bool :=
  !(pyStrip stagedNameOnlyStdout).isEmpty

/-- get_git_diff (lines 148-150): the decoded, stripped stdout of
`git diff --cached --ignore-all-space`. -/
def get_git_diff (diffStdout : String) : String :=
  pyStrip diffStdout

/-- The git-state / environment a run of the changelog tool observes. -/
structure Env where
  isRepo : Bool
  stagedNameOnlyStdout : String
  diffStdout : String
  fileExists : Bool
  fileContent : String
  apiKey : Option String
  apiResponse : PyValue
  writeOk : Bool

/-- main of keep-a-changelog.py as a trace function (debug-only echoes are not
modeled), following the source's control flow (lines 93-132): abort when not
a git repository; skip when the changelog is already staged; skip when the
stripped staged diff is empty; read the current changelog (empty when the
file does not exist); rebind `user_prompt`/`system_prompt` from the built-in
templates, ignoring the option values (lines 108-109); abort without an API
key; POST the payload; abort when the response is falsy; extract; abort with
an error echo when the extraction result is falsy; write the file and echo
success, or echo a write error. -/
def main (env : Env) (_debug : Bool) (model : String) (changelog_filename : String)
    (_user_prompt _system_prompt : Option String) : List Event × RunResult :=
  if !env.isRepo then
    ([.echo "ERROR: Not in a git repository" true], .returned)
  else if is_changelog_staged env.stagedNameOnlyStdout then
    ([.echo ("INFO: Skipping " ++ changelog_filename ++ " update") false], .returned)
  else
    let changes := get_git_diff env.diffStdout
    if changes.isEmpty then
      ([.echo "INFO: No staged changes found. Please stage your changes using 'git add' first." false],
        .returned)
    else
      let current_changelog := if env.fileExists then env.fileContent else ""
      let user_prompt := pyFormat1 USER_PROMPT changes
      let system_prompt := pyFormat1 SYSTEM_PROMPT current_changelog
      match env.apiKey with
      | none =>
        ([.echo "ERROR: No API key found. Please provide the OpenRouter API key as an argument or set the OPENROUTER_API_KEY environment variable." true],
          .returned)
      | some _ =>
        let req := Event.apiRequest model user_prompt system_prompt
        let response := env.apiResponse
        if pyFalsy response then
          ([req, .echo "ERROR: Failed to generate release notes." true], .returned)
        else
          match extract_generated_changelog response with
          | .error e => ([req], .crashed e)
          | .ok generated_changelog =>
            if (match generated_changelog with | none => true | some s => s.isEmpty) then
              ([req, .echo "ERROR: Failed to extract release notes from API response." true],
                .returned)
            else
              let content := generated_changelog.getD ""
              if env.writeOk then
                ([req, .writeFile changelog_filename content,
                   .echo ("Release notes successfully written to " ++ changelog_filename) false],
                  .returned)
              else
                ([req, .writeFile changelog_filename content,
                   .echo ("ERROR: Failed to write to " ++ changelog_filename) true],
                  .returned)

end KeepAChangelog

/-- Scan deciding that every backslash in the list is the first character of a
literal `\n` digram (and in particular no two backslashes are adjacent): on
such inputs the first sanitization step consumes every backslash. -/
def noStrayBackslash : List Char → Bool
  | [] => true
  | '\\' :: 'n' :: rest => noStrayBackslash rest
  | '\\' :: _ => false
  | _ :: rest => noStrayBackslash rest

/-- The transformation the spec's sentence for C4 describes: the literal `\n`
sequences converted to real newlines, and surrounding whitespace trimmed —
and nothing else. -/
def specNewlineTrim (s : String) : String :=
  ⟨stripTrailingWs (stripLeadingWs (subBackslashN s.toList))⟩

/-- The string starts with a whitespace character. -/
def hasLeadingWs (s : String) : Bool :=
  (s.toList.head?.map pyWhitespace).getD false

/-- The string ends with a whitespace character. -/
def hasTrailingWs (s : String) : Bool :=
  (s.toList.getLast?.map pyWhitespace).getD false

namespace PrepareCommitMsg

/-- The first line of a message (what claim C7 says the pattern is checked
against). -/
def specFirstLine (m : String) : List Char :=
  m.toList.takeWhile (fun c => c != '\n')

/-- Declarative reading of the conventional-commit pattern on the consumed
core: the core holds no newline, starts with one of the type alternatives,
and continues either with `: ` and a nonempty description, or with a
parenthesized nonempty scope, `: `, and a nonempty description. -/
def ConventionalCore (l : List Char) : Prop :=
  '\n' ∉ l ∧ ∃ t ∈ commitTypes, ∃ tail, l = t.toList ++ tail ∧
    ((∃ d, tail = ':' :: ' ' :: d ∧ d ≠ []) ∨
     (∃ s d, tail = '(' :: (s ++ ')' :: ':' :: ' ' :: d) ∧ s ≠ [] ∧ d ≠ []))

end PrepareCommitMsg

/-- A response string decomposed around its `"content":"hello world"`
substring. -/
def c8String (pre post : List Char) : List Char :=
  pre ++ (contentKeyPat ++ ("hello world".toList ++ ('"' :: post)))

/-! ## Fixture environments for the end-to-end claims -/

/-- A commit-tool environment with staged changes, an API key and a
well-formed response carrying a conventional commit message. -/
def commitEnvOk : PrepareCommitMsg.Env :=
  { isRepo := true, diffStdout := "M\tapp.py", apiKey := some "sk-key",
    apiResponse := PyValue.pyDict [("choices", PyValue.pyList [PyValue.pyDict
      [("message", PyValue.pyDict [("content", PyValue.pyStr "feat: add x")])]])] }

/-- The commit tool run on `commitEnvOk` with default options. -/
def commitRunOk : List Event × RunResult :=
  PrepareCommitMsg.main commitEnvOk false "google/gemini-flash-1.5-8b"
    ".git/COMMIT_EDITMSG" false none none

/-- A commit-tool environment whose staged diff is empty. -/
def commitEnvEmptyDiff : PrepareCommitMsg.Env :=
  { isRepo := true, diffStdout := "", apiKey := some "sk-key",
    apiResponse := PyValue.pyNone }

/-- The commit tool run on `commitEnvEmptyDiff` with default options. -/
def commitRunEmptyDiff : List Event × RunResult :=
  PrepareCommitMsg.main commitEnvEmptyDiff false "google/gemini-flash-1.5-8b"
    ".git/COMMIT_EDITMSG" false none none

/-- A changelog-tool environment with staged changes, the changelog not
staged, an API key and a well-formed response carrying changelog content. -/
def changelogEnvOk : KeepAChangelog.Env :=
  { isRepo := true, stagedNameOnlyStdout := "", diffStdout := "diff --git a/app.py b/app.py",
    fileExists := false, fileContent := "", apiKey := some "sk-key",
    apiResponse := PyValue.pyDict [("choices", PyValue.pyList [PyValue.pyDict
      [("message", PyValue.pyDict [("content", PyValue.pyStr "## [1.0.0] - 2024-12-01")])]])],
    writeOk := true }

/-- The changelog tool run on `changelogEnvOk` with default options. -/
def changelogRunOk : List Event × RunResult :=
  KeepAChangelog.main changelogEnvOk false "google/gemini-flash-1.5-8b" "CHANGELOG.md" none none

/-- A well-formed response whose content exercises the C4 pipeline. -/
def c4Response : PyValue :=
  PyValue.pyDict [("choices", PyValue.pyList [PyValue.pyDict
    [("message", PyValue.pyDict [("content", PyValue.pyStr "  feat: a\\nb  ")])]])]

/-- A well-formed response whose content holds a stray `\t` escape. -/
def c4CexResponse : PyValue :=
  PyValue.pyDict [("choices", PyValue.pyList [PyValue.pyDict
    [("message", PyValue.pyDict [("content", PyValue.pyStr "fix: a\\nb\\tc")])]])]

/-! ## Lemmas about the sanitization pipeline -/

theorem subBackslashN_cons_ne (c : Char) (rest : List Char) (hc : c ≠ '\\') :
    subBackslashN (c :: rest) = c :: subBackslashN rest := by
  rw [subBackslashN.eq_def]
  split
  · simp_all
  · rename_i heq; rw [List.cons.injEq] at heq; exact absurd heq.1 hc
  · rename_i heq; rw [List.cons.injEq] at heq; rw [heq.1, heq.2]

theorem subBackslashR_cons_ne (c : Char) (rest : List Char) (hc : c ≠ '\\') :
    subBackslashR (c :: rest) = c :: subBackslashR rest := by
  rw [subBackslashR.eq_def]
  split
  · simp_all
  · rename_i heq; rw [List.cons.injEq] at heq; exact absurd heq.1 hc
  · rename_i heq; rw [List.cons.injEq] at heq; rw [heq.1, heq.2]

theorem noStrayBackslash_cons_ne (c : Char) (rest : List Char) (hc : c ≠ '\\') :
    noStrayBackslash (c :: rest) = noStrayBackslash rest := by
  rw [noStrayBackslash.eq_def]
  split
  · simp_all
  · rename_i heq; rw [List.cons.injEq] at heq; exact absurd heq.1 hc
  · rename_i hall heq; rw [List.cons.injEq] at heq; exact absurd heq.1 hc
  · rename_i heq; rw [List.cons.injEq] at heq; rw [heq.2]

theorem subBackslashN_id (l : List Char) (h : '\\' ∉ l) : subBackslashN l = l := by
  induction l with
  | nil => rfl
  | cons c rest ih =>
    have hc : c ≠ '\\' := fun hcc => h (hcc ▸ List.mem_cons_self c rest)
    rw [subBackslashN_cons_ne c rest hc, ih (fun hm => h (List.mem_cons_of_mem c hm))]

theorem subBackslashR_id (l : List Char) (h : '\\' ∉ l) : subBackslashR l = l := by
  induction l with
  | nil => rfl
  | cons c rest ih =>
    have hc : c ≠ '\\' := fun hcc => h (hcc ▸ List.mem_cons_self c rest)
    rw [subBackslashR_cons_ne c rest hc, ih (fun hm => h (List.mem_cons_of_mem c hm))]

theorem subBackslashAlphaAux_id (l : List Char) (h : '\\' ∉ l) :
    subBackslashAlphaAux l false = l := by
  induction l with
  | nil => rfl
  | cons c rest ih =>
    have hc : c ≠ '\\' := fun hcc => h (hcc ▸ List.mem_cons_self c rest)
    have hrest : '\\' ∉ rest := fun hm => h (List.mem_cons_of_mem c hm)
    match rest with
    | [] => simp [subBackslashAlphaAux, hc]
    | c2 :: rest2 =>
      rw [show subBackslashAlphaAux (c :: c2 :: rest2) false
            = c :: subBackslashAlphaAux (c2 :: rest2) false by
          simp [subBackslashAlphaAux, hc]]
      rw [ih hrest]

theorem subBackslashAlpha_id (l : List Char) (h : '\\' ∉ l) : subBackslashAlpha l = l :=
  subBackslashAlphaAux_id l h

theorem subBackslashN_noStray (l : List Char) (h : noStrayBackslash l = true) :
    '\\' ∉ subBackslashN l := by
  induction l using noStrayBackslash.induct with
  | case1 => simp [subBackslashN]
  | case2 rest ih =>
    rw [noStrayBackslash] at h
    rw [subBackslashN]
    simp only [List.mem_cons, not_or]
    exact ⟨by decide, ih h⟩
  | case3 => simp [noStrayBackslash] at h
  | case4 c rest h1 h2 ih =>
    have hc : c ≠ '\\' := fun hcc => h2 hcc
    rw [noStrayBackslash_cons_ne c rest hc] at h
    rw [subBackslashN_cons_ne c rest hc]
    simp only [List.mem_cons, not_or]
    exact ⟨fun hcc => hc hcc.symm, ih h⟩

theorem stripLeadingWs_not_mem (l : List Char) (c : Char) (h : c ∉ l) :
    c ∉ stripLeadingWs l :=
  fun hm => h ((List.dropWhile_sublist pyWhitespace).subset hm)

theorem stripTrailingWs_not_mem (l : List Char) (c : Char) (h : c ∉ l) :
    c ∉ stripTrailingWs l := by
  intro hm
  rw [stripTrailingWs, List.mem_reverse] at hm
  exact h (List.mem_reverse.mp ((List.dropWhile_sublist pyWhitespace).subset hm))

theorem head_stripLeadingWs (l : List Char) (c : Char)
    (h : (stripLeadingWs l).head? = some c) : pyWhitespace c = false := by
  induction l with
  | nil => simp [stripLeadingWs] at h
  | cons a rest ih =>
    rw [stripLeadingWs, List.dropWhile_cons] at h
    split at h
    · exact ih h
    · rename_i hws
      rw [List.head?_cons, Option.some.injEq] at h
      rw [← h]
      exact Bool.not_eq_true _ ▸ (by simpa using hws)

theorem stripTrailingWs_isPrefix (l : List Char) : stripTrailingWs l <+: l := by
  rw [stripTrailingWs]
  conv_rhs => rw [← List.reverse_reverse l]
  exact List.reverse_prefix.mpr (List.dropWhile_suffix pyWhitespace)

theorem head?_of_isPrefix (x y : List Char) (c : Char) (hp : x <+: y)
    (h : x.head? = some c) : y.head? = some c := by
  obtain ⟨t, rfl⟩ := hp
  match x, h with
  | a :: xs, h => simpa using h

theorem getLast_stripTrailingWs (l : List Char) (c : Char)
    (h : (stripTrailingWs l).getLast? = some c) : pyWhitespace c = false := by
  rw [stripTrailingWs, List.getLast?_reverse] at h
  exact head_stripLeadingWs l.reverse c h

theorem trimmed_head (l : List Char) (c : Char)
    (h : (stripTrailingWs (stripLeadingWs l)).head? = some c) : pyWhitespace c = false :=
  head_stripLeadingWs l c
    (head?_of_isPrefix _ _ c (stripTrailingWs_isPrefix (stripLeadingWs l)) h)

theorem sanitizeContent_no_backslash (l : List Char) (h : '\\' ∉ l) :
    sanitizeContent l = stripTrailingWs (stripLeadingWs l) := by
  rw [sanitizeContent, subBackslashN_id l h, subBackslashR_id l h,
    subBackslashAlpha_id _ (stripTrailingWs_not_mem _ _ (stripLeadingWs_not_mem _ _ h))]

theorem sanitizeContent_noStray (l : List Char) (h : noStrayBackslash l = true) :
    sanitizeContent l = stripTrailingWs (stripLeadingWs (subBackslashN l)) := by
  have h1 := subBackslashN_noStray l h
  rw [sanitizeContent, subBackslashR_id _ h1,
    subBackslashAlpha_id _ (stripTrailingWs_not_mem _ _ (stripLeadingWs_not_mem _ _ h1))]

/-! ## Lemmas about the conventional-commit matcher -/

namespace PrepareCommitMsg

theorem colonSpaceDesc_iff (l : List Char) :
    colonSpaceDesc l = true ↔ ∃ d, l = ':' :: ' ' :: d ∧ d ≠ [] := by
  constructor
  · intro h
    match l, h with
    | c1 :: c2 :: c3 :: rest, h =>
      rw [colonSpaceDesc] at h
      simp only [Bool.and_eq_true, beq_iff_eq] at h
      exact ⟨c3 :: rest, by rw [h.1, h.2], by simp⟩
  · rintro ⟨d, rfl, hd⟩
    match d, hd with
    | x :: d2, _ => rfl

theorem closeParenDesc_iff (l : List Char) :
    closeParenDesc l = true ↔ ∃ d, l = ')' :: ':' :: ' ' :: d ∧ d ≠ [] := by
  constructor
  · intro h
    match l, h with
    | c1 :: c2 :: c3 :: c4 :: rest, h =>
      rw [closeParenDesc] at h
      simp only [Bool.and_eq_true, beq_iff_eq] at h
      obtain ⟨⟨h1, h2⟩, h3⟩ := h
      exact ⟨c4 :: rest, by rw [h1, h2, h3], by simp⟩
  · rintro ⟨d, rfl, hd⟩
    match d, hd with
    | x :: d2, _ => rfl

theorem closeScan_iff (l : List Char) :
    closeScan l = true ↔ ∃ pre d, l = pre ++ ')' :: ':' :: ' ' :: d ∧ d ≠ [] := by
  induction l with
  | nil =>
    constructor
    · intro h; exact absurd h (by decide)
    · rintro ⟨pre, d, heq, hd⟩; cases pre <;> simp at heq
  | cons c rest ih =>
    rw [closeScan, Bool.or_eq_true, ih, closeParenDesc_iff]
    constructor
    · rintro (⟨d, heq, hd⟩ | ⟨pre, d, heq, hd⟩)
      · exact ⟨[], d, heq, hd⟩
      · exact ⟨c :: pre, d, by rw [List.cons_append, heq], hd⟩
    · rintro ⟨pre, d, heq, hd⟩
      match pre, heq with
      | [], heq => exact Or.inl ⟨d, by simpa using heq, hd⟩
      | p :: pre2, heq =>
        rw [List.cons_append, List.cons.injEq] at heq
        exact Or.inr ⟨pre2, d, heq.2, hd⟩

theorem afterTypeMatch_iff (l : List Char) :
    afterTypeMatch l = true ↔
      ((∃ d, l = ':' :: ' ' :: d ∧ d ≠ []) ∨
       (∃ s d, l = '(' :: (s ++ ')' :: ':' :: ' ' :: d) ∧ s ≠ [] ∧ d ≠ [])) := by
  match l with
  | [] =>
    constructor
    · intro h; exact absurd h (by decide)
    · rintro (⟨d, heq, hd⟩ | ⟨s, d, heq, hs, hd⟩) <;> simp at heq
  | [c1] =>
    rw [afterTypeMatch]
    constructor
    · intro h; exact absurd h (by simp)
    · rintro (⟨d, heq, hd⟩ | ⟨s, d, heq, hs, hd⟩)
      · simp at heq
      · rw [List.cons.injEq] at heq
        exact absurd heq.2 (by cases s <;> simp)
  | c1 :: c2 :: rest =>
    rw [afterTypeMatch]
    by_cases hc1 : c1 = '('
    · rw [if_pos (by simp [hc1]), closeScan_iff]
      subst hc1
      constructor
      · rintro ⟨pre, d, heq, hd⟩
        exact Or.inr ⟨c2 :: pre, d, by rw [heq, List.cons_append], by simp, hd⟩
      · rintro (⟨d, heq, hd⟩ | ⟨s, d, heq, hs, hd⟩)
        · rw [List.cons.injEq] at heq
          exact absurd heq.1 (by decide)
        · rw [List.cons.injEq] at heq
          match s, hs with
          | x :: pre2, _ =>
            rw [List.cons_append, List.cons.injEq] at heq
            exact ⟨pre2, d, heq.2.2, hd⟩
    · rw [if_neg (by simpa using hc1), colonSpaceDesc_iff]
      constructor
      · intro h; exact Or.inl h
      · rintro (h | ⟨s, d, heq, hs, hd⟩)
        · exact h
        · rw [List.cons.injEq] at heq
          exact absurd heq.1 hc1

theorem drop_typeLen (t : String) (tail : List Char) :
    (t.toList ++ tail).drop t.length = tail := by
  have h : t.length = t.toList.length := rfl
  rw [h]
  exact List.drop_left t.toList tail

theorem lineMatch_iff (l : List Char) : lineMatch l = true ↔ ConventionalCore l := by
  rw [lineMatch, ConventionalCore, Bool.and_eq_true, List.any_eq_true]
  constructor
  · rintro ⟨hnl, t, htmem, hpt⟩
    rw [Bool.and_eq_true] at hpt
    obtain ⟨hpre, hafter⟩ := hpt
    obtain ⟨tail, rfl⟩ := List.isPrefixOf_iff_prefix.mp hpre
    rw [drop_typeLen t tail] at hafter
    exact ⟨by simpa using hnl, t, htmem, tail, rfl, (afterTypeMatch_iff tail).mp hafter⟩
  · rintro ⟨hnl, t, htmem, tail, rfl, hbranch⟩
    refine ⟨by simpa using hnl, t, htmem, ?_⟩
    rw [Bool.and_eq_true]
    refine ⟨List.isPrefixOf_iff_prefix.mpr ⟨tail, rfl⟩, ?_⟩
    rw [drop_typeLen t tail]
    exact (afterTypeMatch_iff tail).mpr hbranch

theorem validate_commit_message_iff (m : String) :
    validate_commit_message m = true ↔ ConventionalCore (coreOf m) :=
  lineMatch_iff (coreOf m)

end PrepareCommitMsg

/-! ## Lemmas about the fallback regex search -/

theorem searchContent_cons_nomatch (c : Char) (rest : List Char)
    (h : contentKeyPat.isPrefixOf (c :: rest) = false) :
    searchContent (c :: rest) = searchContent rest := by
  simp [searchContent, h]

theorem c8String_cons (c : Char) (pre post : List Char) :
    c8String (c :: pre) post = c :: c8String pre post := by
  simp [c8String]

/-- Where the `"content":"` literal first occurs at position `pre.length` and
is followed by `hello world"`, the fallback search captures `hello world`,
whatever comes after the closing quote. -/
theorem searchContent_first_occurrence (pre post : List Char)
    (h : ∀ i, i < pre.length →
      contentKeyPat.isPrefixOf ((c8String pre post).drop i) = false) :
    searchContent (c8String pre post) = some "hello world".toList := by
  induction pre with
  | nil =>
    simp only [c8String, List.nil_append]
    rfl
  | cons c pre2 ih =>
    have h0 := h 0 (by simp)
    rw [List.drop_zero, c8String_cons] at h0
    rw [c8String_cons, searchContent_cons_nomatch _ _ h0]
    apply ih
    intro i hi
    have hnext := h (i + 1) (by simpa using Nat.succ_lt_succ hi)
    rw [c8String_cons, List.drop_succ_cons] at hnext
    exact hnext

/-! ## The claims -/

/-- C1 (code_bug evidence): on a run with staged changes, an API key and a
well-formed response from which a non-empty message would be extracted, the
commit tool crashes with a `TypeError` (line 142 passes one argument to the
two-parameter `extract_commit_message`) and no file write occurs, where the
claim says the sanitized message is written to `--commit-msg-filename`. -/
theorem commit_tool_crashes_before_write :
    commitRunOk.2 = RunResult.crashed PyErr.typeError
      ∧ (commitRunOk.1.all fun e => !e.isWrite) = true :=
  ⟨rfl, rfl⟩

/-- C2 (code_bug evidence): on a run with staged changes and a well-formed
response whose `choices[0].message.content` is a non-empty string, the
changelog tool echoes the extraction-failure error and performs no file
write (line 213 rebinds the extraction result to `debug_log`'s `None`),
where the claim says the extracted text is written to
`--changelog-filename`. -/
theorem changelog_tool_never_writes :
    (changelogRunOk.1.any
        (Event.isEchoMsg "ERROR: Failed to extract release notes from API response.")) = true
      ∧ (changelogRunOk.1.all fun e => !e.isWrite) = true
      ∧ changelogRunOk.2 = RunResult.returned :=
  ⟨rfl, rfl, rfl⟩

/-- C3 (code_bug evidence): on a run whose staged diff is empty, the commit
tool still performs the HTTP request and never echoes the informational
no-staged-changes message, because line 122 tests the truthiness of the
`CompletedProcess` object itself, which is always truthy. -/
theorem commit_tool_requests_api_on_empty_diff :
    (commitRunEmptyDiff.1.any Event.isApiRequest) = true
      ∧ (commitRunEmptyDiff.1.any
          (Event.isEchoMsg
            "INFO: No staged changes found. Please stage your changes using 'git add' first.")) = false :=
  ⟨rfl, rfl⟩

/-- C4 (counterexample): for the content `fix: a\nb\tc`, extraction followed
by sanitization yields `fix: a` + newline + `b` — the final sanitization step
also deletes the `\tc` escape — whereas the claim's description (convert `\n`
sequences, trim whitespace, nothing else) yields `fix: a` + newline +
`b\tc`. -/
theorem extract_commit_message_removes_other_escapes :
    PrepareCommitMsg.extract_commit_message c4CexResponse = Except.ok "fix: a\nb"
      ∧ specNewlineTrim "fix: a\\nb\\tc" = "fix: a\nb\\tc"
      ∧ ("fix: a\nb" : String) ≠ "fix: a\nb\\tc" :=
  ⟨rfl, rfl, by decide⟩

/-- C4 (amended): for a well-formed response whose
`choices[0].message.content` is a string S in which every backslash belongs
to a literal `\n` sequence, extraction followed by sanitization returns S
with each `\n` converted to a real newline and leading and trailing
whitespace trimmed. -/
theorem extract_commit_message_unescapes_and_trims (response : PyValue) (s : String)
    (hres : primaryLookup response = some (PyValue.pyStr s))
    (hstray : noStrayBackslash s.toList = true) :
    PrepareCommitMsg.extract_commit_message response = Except.ok (specNewlineTrim s) := by
  simp only [PrepareCommitMsg.extract_commit_message, hres]
  have : sanitizeStr s = specNewlineTrim s := by
    rw [sanitizeStr, specNewlineTrim, sanitizeContent_noStray s.toList hstray]
  rw [this]

/-- C4 witness: the amended theorem applied to a concrete response. -/
theorem extract_commit_message_unescapes_and_trims_witness :
    primaryLookup c4Response = some (PyValue.pyStr "  feat: a\\nb  ")
      ∧ noStrayBackslash ("  feat: a\\nb  ").toList = true
      ∧ PrepareCommitMsg.extract_commit_message c4Response
          = Except.ok (specNewlineTrim "  feat: a\\nb  ") :=
  ⟨rfl, rfl, extract_commit_message_unescapes_and_trims c4Response "  feat: a\\nb  " rfl rfl⟩

/-- C5 (counterexample): on the input `a \t` (backslash-t), the pipeline's
final escape-removal step exposes the interior space, so the output `a ` has
trailing whitespace — the claimed step-order guarantee fails. -/
theorem sanitize_reintroduces_trailing_whitespace :
    sanitizeStr "a \\t" = "a " ∧ hasTrailingWs (sanitizeStr "a \\t") = true :=
  ⟨rfl, rfl⟩

/-- C5 (amended): for every input string containing no backslash (so the
final escape-removal step is inert), the sanitization pipeline's output has
no leading and no trailing whitespace. -/
theorem sanitize_output_trimmed_of_backslash_free (s : String)
    (h : s.toList.contains '\\' = false) :
    hasLeadingWs (sanitizeStr s) = false ∧ hasTrailingWs (sanitizeStr s) = false := by
  have hmem : '\\' ∉ s.toList := by simpa using h
  have heq : (sanitizeStr s).toList = stripTrailingWs (stripLeadingWs s.toList) :=
    sanitizeContent_no_backslash s.toList hmem
  constructor
  · rw [hasLeadingWs, heq]
    cases hh : (stripTrailingWs (stripLeadingWs s.toList)).head? with
    | none => rfl
    | some c =>
      simp only [Option.map_some', Option.getD_some]
      exact trimmed_head s.toList c hh
  · rw [hasTrailingWs, heq]
    cases hh : (stripTrailingWs (stripLeadingWs s.toList)).getLast? with
    | none => rfl
    | some c =>
      simp only [Option.map_some', Option.getD_some]
      exact getLast_stripTrailingWs (stripLeadingWs s.toList) c hh

/-- C5 witness: the amended theorem applied to a concrete input. -/
theorem sanitize_output_trimmed_witness :
    ("  ok  ").toList.contains '\\' = false
      ∧ hasLeadingWs (sanitizeStr "  ok  ") = false
      ∧ hasTrailingWs (sanitizeStr "  ok  ") = false :=
  ⟨rfl, (sanitize_output_trimmed_of_backslash_free "  ok  " rfl).1,
    (sanitize_output_trimmed_of_backslash_free "  ok  " rfl).2⟩

/-- C6 (code_bug evidence): on a response that is a string without any
`"content":"..."` occurrence, both extraction paths fail and
`extract_commit_message` raises `TypeError` (the sanitization `re.sub` is
applied to `None`) instead of returning an empty result for the caller to
report. -/
theorem extract_commit_message_crashes_on_no_match :
    PrepareCommitMsg.extract_commit_message (PyValue.pyStr "oops") = Except.error PyErr.typeError :=
  rfl

/-- C7 (counterexample): on the two-line message `feat: add flag` + newline +
`body`, the first line matches the conventional-commit pattern, yet
`validate_commit_message` returns false — the pattern is matched against the
whole message, not its first line. -/
theorem validate_commit_message_not_first_line :
    PrepareCommitMsg.lineMatch (PrepareCommitMsg.specFirstLine "feat: add flag\nbody") = true
      ∧ PrepareCommitMsg.validate_commit_message "feat: add flag\nbody" = false :=
  ⟨rfl, rfl⟩

/-- C7 (amended): `validate_commit_message` returns true iff the whole
message — after removing at most one terminating newline — is a single
newline-free line of the form `<type>[(scope)]: <description>` with `<type>`
one of the eleven alternatives, the parenthesized scope nonempty and the
description nonempty; in particular `validate_commit_message("feat(cli): add
flag")` is true and `validate_commit_message("added a flag")` is false. -/
theorem validate_commit_message_characterization :
    (∀ m : String, PrepareCommitMsg.validate_commit_message m = true
        ↔ PrepareCommitMsg.ConventionalCore (PrepareCommitMsg.coreOf m))
      ∧ PrepareCommitMsg.validate_commit_message "feat(cli): add flag" = true
      ∧ PrepareCommitMsg.validate_commit_message "added a flag" = false :=
  ⟨PrepareCommitMsg.validate_commit_message_iff, rfl, rfl⟩

/-- C8 (counterexample): a malformed response string that contains the
substring `"content":"hello world"` but also an earlier `"content":"bye"`
makes the fallback extraction yield `bye`, not `hello world`. -/
theorem fallback_regex_takes_earlier_match :
    occursIn ("\"content\":\"hello world\"").toList
        ("\"content\":\"bye\" \"content\":\"hello world\"").toList = true
      ∧ reSearchContent "\"content\":\"bye\" \"content\":\"hello world\"" = some "bye" :=
  ⟨rfl, rfl⟩

/-- C8 (amended): for every malformed response string in which the first
occurrence of the `"content":"` literal is the one of its
`"content":"hello world"` substring, the fallback regex extraction yields
`hello world`. -/
theorem fallback_regex_first_content_occurrence (pre post : List Char)
    (h : ∀ i, i < pre.length →
      contentKeyPat.isPrefixOf ((c8String pre post).drop i) = false) :
    searchContent (c8String pre post) = some "hello world".toList :=
  searchContent_first_occurrence pre post h

/-- C8 witness: the amended theorem applied to a concrete surrounding. -/
theorem fallback_regex_first_content_occurrence_witness :
    (∀ i, i < ("xy".toList).length →
        contentKeyPat.isPrefixOf ((c8String "xy".toList "z".toList).drop i) = false)
      ∧ searchContent (c8String "xy".toList "z".toList) = some "hello world".toList :=
  ⟨by decide, fallback_regex_first_content_occurrence "xy".toList "z".toList (by decide)⟩

/-- C9: in the commit tool's post-extraction continuation, a non-empty
message failing `validate_commit_message` produces the validation error echo
and is still written to the commit-message file — validation does not gate
the write. -/
theorem validation_does_not_gate_write (fname msg : String) (writeOk : Bool)
    (hne : msg ≠ "") (hval : PrepareCommitMsg.validate_commit_message msg = false) :
    Event.echo "ERROR: Generated message does not follow conventional commit format" true
        ∈ PrepareCommitMsg.mainPostExtract fname (some msg) writeOk
      ∧ Event.writeFile fname msg ∈ PrepareCommitMsg.mainPostExtract fname (some msg) writeOk := by
  have hemp : msg.isEmpty = false :=
    Bool.eq_false_iff.mpr (fun hq => hne ((String.isEmpty_iff msg).mp hq))
  simp only [PrepareCommitMsg.mainPostExtract, hemp, hval, Bool.not_false, if_true,
    Bool.false_eq_true, if_false, Option.getD_some]
  constructor
  · simp
  · simp

/-- C9 witness: the theorem applied to a concrete non-conforming message. -/
theorem validation_does_not_gate_write_witness :
    Event.echo "ERROR: Generated message does not follow conventional commit format" true
        ∈ PrepareCommitMsg.mainPostExtract ".git/COMMIT_EDITMSG" (some "added a flag") true
      ∧ Event.writeFile ".git/COMMIT_EDITMSG" "added a flag"
          ∈ PrepareCommitMsg.mainPostExtract ".git/COMMIT_EDITMSG" (some "added a flag") true :=
  validation_does_not_gate_write ".git/COMMIT_EDITMSG" "added a flag" true
    (by decide) rfl

/-- C10: in both tools, the `--user-prompt` and `--system-prompt` option
values have no effect on the run: the whole observable trace — in particular
the HTTP payload's user and system message contents — is identical across
any two values of these options, because main rebinds both variables from
the built-in templates before the request. -/
theorem prompt_options_do_not_affect_payload :
    (∀ (env : PrepareCommitMsg.Env) (debug : Bool) (model fname : String) (os : Bool)
        (u1 s1 u2 s2 : Option String),
        PrepareCommitMsg.main env debug model fname os u1 s1
          = PrepareCommitMsg.main env debug model fname os u2 s2)
      ∧ (∀ (env : KeepAChangelog.Env) (debug : Bool) (model fname : String)
          (u1 s1 u2 s2 : Option String),
          KeepAChangelog.main env debug model fname u1 s1
            = KeepAChangelog.main env debug model fname u2 s2) :=
  ⟨fun _ _ _ _ _ _ _ _ _ => rfl, fun _ _ _ _ _ _ _ _ => rfl⟩
